/-
Verification of the DS4CG camera-trap training/evaluation harness.

Shallow embedding of src/src/datasets.py (the NACTI dataset adapter) and
src/src/engine.py (the Engine orchestration: epoch-range computation,
best-checkpoint selection, weighted-loss statistics, single-batch
evaluation, device selection, and the instance-attribute namespace).

Python dictionaries are modelled as association lists with distinct keys,
Python floats as rationals, and fallible operations (KeyError, IndexError,
AttributeError, failed construction) as values in an Except monad.
-/
import Mathlib

set_option maxHeartbeats 1000000

/-- Model of a Python dict subscript `d[k]` over an association list: the
value at the first matching key, or `none` (a KeyError) when the key is
absent.  The repository's dict literals all have pairwise-distinct keys. -/
def dictLookup {α β : Type} [DecidableEq α] (k : α) : List (α × β) → Option β
  | [] => none
  | (k2, v) :: rest => if k = k2 then some v else dictLookup k rest

/-- One entry of the metadata `images` array (src/src/datasets.py): the
image is represented by its `file_name`; pixel decoding is external. -/
structure ImageRec where
  file_name : String
deriving DecidableEq

/-- One entry of the metadata `annotations` array: the raw `category_id`. -/
structure AnnRecord where
  category_id : Nat
deriving DecidableEq

/-- The parsed `nacti_metadata_tmp.json` document: index-aligned `images`
and `annotations` arrays. -/
structure Metadata where
  images : List ImageRec
  annotations : List AnnRecord
deriving DecidableEq

/-- The constructed NACTI dataset adapter state: the loaded metadata and the
selected label map (`self.metadata`, `self.label_map`).  The directory path
and the optional image transform are not label-relevant and are omitted. -/
structure NACTI where
  metadata : Metadata
  label_map : List (Nat × Nat)
deriving DecidableEq

/-- The `NACTI.BINARY` class attribute of src/src/datasets.py: raw category
id to binary label (0: not animal, 1: animal), transcribed verbatim. -/
def NACTI.BINARY : List (Nat × Nat) :=
  [(1, 1), (3, 1), (4, 1), (5, 1), (6, 1), (7, 1), (9, 1), (10, 1), (11, 1),
   (12, 1), (13, 1), (14, 1), (15, 1), (16, 0), (17, 1), (18, 1), (19, 1),
   (21, 1), (22, 1), (23, 1), (24, 1), (26, 1), (27, 1), (28, 1), (29, 1),
   (30, 1), (31, 1), (32, 1), (33, 1), (34, 1), (35, 1), (36, 1), (37, 1),
   (38, 1), (40, 1), (41, 1), (42, 1), (43, 1), (44, 1), (46, 1), (47, 1),
   (50, 1), (53, 1), (54, 1), (55, 1), (56, 1), (57, 1), (58, 1), (59, 1),
   (60, 1), (62, 1), (63, 1), (64, 1), (65, 1), (66, 1), (67, 1), (68, 0),
   (69, 1), (70, 1)]

/-- The `NACTI.MULTI` class attribute: the empty dict. -/
def NACTI.MULTI : List (Nat × Nat) := []

/-- The `NACTI.LABEL_TYPES` class attribute: selector name to label map. -/
def NACTI.LABEL_TYPES : List (String × List (Nat × Nat)) :=
  [("binary", NACTI.BINARY), ("multi", NACTI.MULTI)]

/-- `NACTI.__init__` (metadata already parsed from the JSON file).  When the
selector is not a key of `LABEL_TYPES`, the code logs an error and the
subsequent subscript `self.LABEL_TYPES[label_type]` raises KeyError, so
construction fails before any image file is touched (images are only opened
in `__getitem__`).  Otherwise `label_map` is the selected table. -/
def NACTI.init (metadata : Metadata) (label_type : String) : Except String NACTI :=
  match dictLookup label_type NACTI.LABEL_TYPES with
  | some m => Except.ok ⟨metadata, m⟩
  | none => Except.error ("KeyError: label_type")

/-- `NACTI.__len__`: the number of annotation records. -/
def NACTI.length (d : NACTI) : Nat := d.metadata.annotations.length

/-- `NACTI.__getitem__`: open the image at `images[idx].file_name`, then map
the annotation's raw `category_id` through `self.label_map`; an absent key is
a KeyError.  The decoded image is represented by its file name. -/
def NACTI.getitem (d : NACTI) (idx : Nat) : Except String (String × Nat) :=
  match d.metadata.images[idx]? with
  | none => Except.error ("IndexError: images")
  | some img =>
    match d.metadata.annotations[idx]? with
    | none => Except.error ("IndexError: annotations")
    | some ann =>
      match dictLookup ann.category_id d.label_map with
      | none => Except.error ("KeyError: label_map")
      | some label => Except.ok (img.file_name, label)

/-- The two-image example dataset of the spec: annotations with category ids
1 and 16. -/
def exampleMetadata : Metadata :=
  ⟨[⟨"img0.jpg"⟩, ⟨"img1.jpg"⟩], [⟨1⟩, ⟨16⟩]⟩

/-- The example dataset constructed with the binary label map. -/
def exampleBinaryDS : NACTI := ⟨exampleMetadata, NACTI.BINARY⟩

/-- A NACTI adapter whose selector was "multi" (empty label map). -/
def multiDS (md : Metadata) : NACTI := ⟨md, NACTI.MULTI⟩

/-- `Engine._train` line `start_epoch = 0 if self.checkpoint is None else
self.checkpoint['epoch']`; the checkpoint is represented by its epoch. -/
def start_epoch : Option Nat → Nat
  | none => 0
  | some e => e

/-- `Engine._train` lines `num_epochs = train_config.get('num_epochs', 50)`
and `if num_epochs < start_epoch: num_epochs = start_epoch + 50`. -/
def effective_num_epochs (checkpoint : Option Nat) (cfg_num_epochs : Option Nat) : Nat :=
  let s := start_epoch checkpoint
  let n := cfg_num_epochs.getD 50
  if n < s then s + 50 else n

/-- The epoch numbers visited by `for epoch in range(start_epoch, num_epochs)`
in `Engine._train` (Python `range`: empty when the bound is at most the
start). -/
def trainEpochs (checkpoint : Option Nat) (cfg_num_epochs : Option Nat) : List Nat :=
  List.range' (start_epoch checkpoint)
    (effective_num_epochs checkpoint cfg_num_epochs - start_epoch checkpoint)

/-- The checkpoint-saving body of the epoch loop in `Engine._train`: given
the current epoch number, the running `best_acc`, and the remaining per-epoch
validation accuracies, record for each epoch whether `val_acc > best_acc`
held (a save), updating `best_acc` exactly when it did. -/
def trainLoop (epoch : Nat) (best : ℚ) : List ℚ → List (Nat × Bool)
  | [] => []
  | a :: rest =>
    if best < a then (epoch, true) :: trainLoop (epoch + 1) a rest
    else (epoch, false) :: trainLoop (epoch + 1) best rest

/-- Per-epoch save decisions of one `train()` call (`best_acc` starts at
0.0), given the sequence of validation accuracies. -/
def savedFlags (accs : List ℚ) : List Bool :=
  (trainLoop 0 0 accs).map Prod.snd

/-- The save rule as the spec words it, for comparison with `savedFlags`
(which is translated from the code): a save at epoch k exactly when epoch
k's accuracy strictly exceeds every earlier accuracy of the call. -/
def spec_saved_flags (accs : List ℚ) : List Bool :=
  (List.range accs.length).map
    (fun k => decide (∀ j, j < k → accs.getD j 0 < accs.getD k 0))

/-- Selector for the epochs at which a save happened. -/
def saveFilter (p : Nat × Bool) : Option Nat := if p.2 then some p.1 else none

/-- The epoch numbers recorded in successive checkpoint saves of one
`train()` call starting at `start`, in save order. -/
def savedEpochs (start : Nat) (accs : List ℚ) : List Nat :=
  (trainLoop start 0 accs).filterMap saveFilter

/-- Per-batch observables of one pass: the scalar criterion loss for the
batch (`loss.item()`), the batch size (`inputs.size(0)`), and the number of
correct predictions (`torch.sum(predictions == labels.data)`). -/
structure BatchStats where
  loss : ℚ
  size : Nat
  corrects : Nat
deriving DecidableEq

/-- The statistics accumulation `total_loss += loss.item() * inputs.size(0)`
shared by `_train_one_epoch`, `_val` and `_eval`, starting from 0.0. -/
def weighted_total_loss (batches : List BatchStats) : ℚ :=
  batches.foldl (fun acc b => acc + b.loss * (b.size : ℚ)) 0

/-- The value returned by `Engine._train_one_epoch`:
`total_loss / len(self.dataloader['train'].dataset)`. -/
def train_one_epoch_loss (batches : List BatchStats) (datasetSize : Nat) : ℚ :=
  weighted_total_loss batches / (datasetSize : ℚ)

/-- The (val loss, val accuracy) pair returned by `Engine._val`: both
numerators accumulate over every batch of the validation split and both are
divided by `len(self.dataloader['val'].dataset)`. -/
def valPass (batches : List BatchStats) (datasetSize : Nat) : ℚ × ℚ :=
  (weighted_total_loss batches / (datasetSize : ℚ),
   ((batches.foldl (fun acc b => acc + b.corrects) 0 : Nat) : ℚ) / (datasetSize : ℚ))

/-- `Engine._eval`: draw one batch from the evaluation iterator (`none`
models the StopIteration of an empty iterator), then return
`(loss.item() * size / len(dataset), corrects / len(dataset))` — the
numerators come from that single batch, the denominators are the full
evaluation dataset size. -/
def evalPass (batches : List BatchStats) (datasetSize : Nat) : Option (ℚ × ℚ) :=
  match batches with
  | [] => none
  | b :: _ =>
    some ((b.loss * (b.size : ℚ)) / (datasetSize : ℚ),
          ((b.corrects : Nat) : ℚ) / (datasetSize : ℚ))

/-- `_eval` as the spec words it, for comparison with `evalPass` (which is
translated from the code): metrics over the single drawn batch only, the
denominators being that batch's size. -/
def specEvalPass (batches : List BatchStats) : Option (ℚ × ℚ) :=
  match batches with
  | [] => none
  | b :: _ =>
    some ((b.loss * (b.size : ℚ)) / (b.size : ℚ),
          ((b.corrects : Nat) : ℚ) / (b.size : ℚ))

/-- The instance attributes assigned by `BaseEngine.__init__` and
`Engine.__init__` (src/src/engine.py): every `self.name = ...` target. -/
def engineInstanceAttrs : List String :=
  ["config", "tag", "device", "dataloader", "model", "model_name",
   "num_classes", "checkpoint", "is_inception", "optimizer", "criterion"]

/-- A Python attribute read `self.name` on the constructed engine: succeeds
exactly for the names `__init__` assigned, else AttributeError. -/
def engineGetattr (name : String) : Except String Unit :=
  if name ∈ engineInstanceAttrs then Except.ok ()
  else Except.error ("AttributeError: " ++ name)

/-- `Engine._val` with the per-batch prediction step made explicit: for each
batch the code reads `self.num_clsses` before deriving predictions, so with
at least one validation batch the attribute lookup runs (and its failure
aborts the pass); otherwise the loop body never executes and the accumulated
statistics are returned. -/
def valPassChecked (batches : List BatchStats) (datasetSize : Nat) : Except String (ℚ × ℚ) :=
  match batches with
  | [] => Except.ok (valPass [] datasetSize)
  | _ :: _ =>
    match engineGetattr ("num_clsses") with
    | Except.ok _ => Except.ok (valPass batches datasetSize)
    | Except.error e => Except.error e

/-- Modelled from the spec: the process-wide logging singleton `log` of
`src/utils/util.py`, a module absent from src/.  The spec describes it as a
logging capability with the usual severity methods; the methods assumed are
exactly the severity levels `info`, `infov`, `warn`, `error` the repository
relies on.  Reading any other attribute of it fails as a Python
AttributeError, as for any object without a catch-all attribute hook. -/
def logAttrs : List String := ["info", "infov", "warn", "error"]

/-- A call `log.name(...)`: resolves the method attribute first. -/
def logMethod (name : String) : Except String Unit :=
  if name ∈ logAttrs then Except.ok ()
  else Except.error ("AttributeError: " ++ name)

/-- The device-selection block of `BaseEngine.__init__` (src/src/engine.py):
`device = "cuda" if torch.cuda.is_available() else "cpu"`, then on the cpu
branch `log.warn(...)` and on the cuda branch `log.ward(...)`, transcribed
verbatim; the result is the selected device string or the first raised
error. -/
def baseEngineDeviceInit (cuda_available : Bool) : Except String String :=
  let device := if cuda_available then "cuda" else "cpu"
  if device = "cpu" then
    match logMethod ("warn") with
    | Except.ok _ => Except.ok device
    | Except.error e => Except.error e
  else
    match logMethod ("ward") with
    | Except.ok _ => Except.ok device
    | Except.error e => Except.error e

/-! Helper lemmas. -/

/-- A successful dict lookup exhibits a member pair of the association
list. -/
theorem dictLookup_mem {α β : Type} [DecidableEq α] {k : α} {v : β} :
    ∀ {l : List (α × β)}, dictLookup k l = some v → (k, v) ∈ l := by
  intro l
  induction l with
  | nil => intro h; simp [dictLookup] at h
  | cons p rest ih =>
    intro h
    cases p with
    | mk k2 v2 =>
      rw [dictLookup] at h
      by_cases hk : k = k2
      · rw [if_pos hk] at h
        injection h with h2
        subst hk
        subst h2
        exact List.mem_cons_self _ _
      · rw [if_neg hk] at h
        exact List.mem_cons_of_mem _ (ih h)

/-- Unfolding the save loop one epoch: the head records whether the current
accuracy beats the running best, and the recursive call continues with the
pointwise maximum (the code keeps the old best exactly when not beaten). -/
theorem trainLoop_cons (epoch : Nat) (best a : ℚ) (rest : List ℚ) :
    trainLoop epoch best (a :: rest) =
      (epoch, decide (best < a)) :: trainLoop (epoch + 1) (max best a) rest := by
  by_cases h : best < a
  · simp [trainLoop, h, max_eq_right h.le]
  · simp [trainLoop, h, max_eq_left (not_lt.mp h)]

/-- The save flag at position k of the loop run with running best `best`:
set exactly when accuracy k beats both `best` and every earlier accuracy. -/
theorem trainLoop_flag (accs : List ℚ) :
    ∀ (epoch : Nat) (best : ℚ) (k : Nat), k < accs.length →
      (((trainLoop epoch best accs).map Prod.snd).getD k false = true ↔
        (best < accs.getD k 0 ∧ ∀ j, j < k → accs.getD j 0 < accs.getD k 0)) := by
  induction accs with
  | nil => intro _ _ k hk; simp at hk
  | cons a rest ih =>
    intro epoch best k hk
    rw [trainLoop_cons]
    cases k with
    | zero => simp
    | succ k =>
      simp only [List.map_cons, List.getD_cons_succ]
      rw [ih (epoch + 1) (max best a) k (by simpa using hk)]
      constructor
      · rintro ⟨h1, h2⟩
        rw [max_lt_iff] at h1
        refine ⟨h1.1, ?_⟩
        intro j hj
        cases j with
        | zero => simpa using h1.2
        | succ j => simpa using h2 j (by omega)
      · rintro ⟨h1, h2⟩
        refine ⟨max_lt_iff.mpr ⟨h1, by simpa using h2 0 (by omega)⟩, ?_⟩
        intro j hj
        simpa using h2 (j + 1) (by omega)

/-- A set save flag selects the epoch. -/
theorem saveFilter_true (n : Nat) : saveFilter (n, true) = some n := rfl

/-- A clear save flag selects nothing. -/
theorem saveFilter_false (n : Nat) : saveFilter (n, false) = none := rfl

/-- Every epoch recorded as saved by the loop is at least the loop's
starting epoch. -/
theorem trainLoop_saved_ge (accs : List ℚ) :
    ∀ (epoch : Nat) (best : ℚ) (e : Nat),
      e ∈ (trainLoop epoch best accs).filterMap saveFilter → epoch ≤ e := by
  induction accs with
  | nil => intro epoch best e he; simp [trainLoop] at he
  | cons a rest ih =>
    intro epoch best e he
    rw [trainLoop_cons, List.filterMap_cons] at he
    by_cases h : best < a
    · simp only [decide_eq_true h, saveFilter_true, List.mem_cons] at he
      rcases he with rfl | he2
      · exact le_refl e
      · exact le_trans (Nat.le_succ epoch) (ih (epoch + 1) (max best a) e he2)
    · simp only [decide_eq_false h, saveFilter_false] at he
      exact le_trans (Nat.le_succ epoch) (ih (epoch + 1) (max best a) e he)

/-- The epochs recorded as saved by the loop are non-decreasing. -/
theorem trainLoop_saved_sorted (accs : List ℚ) :
    ∀ (epoch : Nat) (best : ℚ),
      List.Sorted (fun a b => a ≤ b)
        ((trainLoop epoch best accs).filterMap saveFilter) := by
  induction accs with
  | nil => intro epoch best; simp [trainLoop]
  | cons a rest ih =>
    intro epoch best
    rw [trainLoop_cons, List.filterMap_cons]
    by_cases h : best < a
    · simp only [decide_eq_true h, saveFilter_true]
      rw [List.sorted_cons]
      refine ⟨?_, ih (epoch + 1) (max best a)⟩
      intro e he
      exact le_trans (Nat.le_succ epoch)
        (trainLoop_saved_ge rest (epoch + 1) (max best a) e he)
    · simp only [decide_eq_false h, saveFilter_false]
      exact ih (epoch + 1) (max best a)

/-- Folding the weighted-loss accumulation equals the initial value plus the
sum of per-batch weighted losses. -/
theorem foldl_weighted (l : List BatchStats) :
    ∀ init : ℚ,
      l.foldl (fun acc b => acc + b.loss * (b.size : ℚ)) init =
        init + (l.map (fun b => b.loss * (b.size : ℚ))).sum := by
  induction l with
  | nil => intro init; simp
  | cons b rest ih => intro init; simp [ih, add_assoc]

/-! Claim theorems. -/

/-- C1, counterexample: with checkpoint epoch 5 and configured num_epochs 5
(so num_epochs <= E with equality), the extension branch is not taken
(`num_epochs < start_epoch` is strict) and the epoch loop runs no epochs at
all, not the 50 epochs 5..54 the claim requires. -/
theorem C1_counterexample :
    (5 : Nat) ≤ 5 ∧ trainEpochs (some 5) (some 5) = [] ∧
      trainEpochs (some 5) (some 5) ≠ List.range' 5 50 := by
  refine ⟨le_refl 5, rfl, ?_⟩
  decide

/-- C1, amended: for a resumed run with checkpoint epoch E, a configured
num_epochs strictly below E is extended to E + 50 and the loop runs exactly
the 50 epochs E..E+49; for num_epochs >= E the loop runs epochs
E..num_epochs-1 (none when num_epochs = E). -/
theorem C1_resume (E n : Nat) :
    (n < E → trainEpochs (some E) (some n) = List.range' E 50) ∧
    (E ≤ n → trainEpochs (some E) (some n) = List.range' E (n - E)) := by
  constructor
  · intro h
    have h5 : effective_num_epochs (some E) (some n) = E + 50 := by
      simp [effective_num_epochs, start_epoch, h]
    simp only [trainEpochs, start_epoch, h5]
    congr 1
    omega
  · intro h
    have h5 : effective_num_epochs (some E) (some n) = n := by
      simp only [effective_num_epochs, start_epoch, Option.getD_some]
      rw [if_neg (by omega)]
    simp only [trainEpochs, start_epoch, h5]

/-- C1, witness: the spec's own example, checkpoint epoch 80 with configured
num_epochs 50 runs epochs 80..129; and a forward run from epoch 3 to bound 7
runs epochs 3..6. -/
theorem C1_resume_witness :
    trainEpochs (some 80) (some 50) = List.range' 80 50 ∧
    trainEpochs (some 3) (some 7) = List.range' 3 4 :=
  ⟨(C1_resume 80 50).1 (by omega), (C1_resume 3 7).2 (by omega)⟩

/-- C2, counterexample: a first epoch with validation accuracy 0.0 is
strictly greater than every (vacuously, none) earlier accuracy, so the claim
requires a save, but the code compares against `best_acc` initialized to 0.0
and does not save. -/
theorem C2_counterexample :
    spec_saved_flags [0] = [true] ∧ savedFlags [(0 : ℚ)] = [false] := by
  constructor
  · decide
  · rfl

/-- C2, amended: within one `train()` call a checkpoint is written at the
end of epoch k iff epoch k's validation accuracy is strictly greater than
0.0 (the initial `best_acc`) and strictly greater than every validation
accuracy observed at earlier epochs of that call; in particular ties never
trigger a save and a first epoch triggers a save iff its accuracy is
strictly positive. -/
theorem C2_saved_iff (accs : List ℚ) (k : Nat) (hk : k < accs.length) :
    (savedFlags accs).getD k false = true ↔
      (0 < accs.getD k 0 ∧ ∀ j, j < k → accs.getD j 0 < accs.getD k 0) :=
  trainLoop_flag accs 0 0 k hk

/-- C2, witness: the spec's example accuracies [0.7, 0.65, 0.9] — epoch 2
is saved because 0.9 is positive and beats both earlier accuracies. -/
theorem C2_saved_iff_witness :
    (savedFlags [(7 : ℚ)/10, 13/20, 9/10]).getD 2 false = true :=
  (C2_saved_iff [(7 : ℚ)/10, 13/20, 9/10] 2 (by norm_num)).mpr
    (by
      refine ⟨by norm_num, ?_⟩
      intro j hj
      interval_cases j <;> norm_num)

/-- C3, counterexample: one evaluation batch of size 2 with loss 1 and 2
correct predictions, over an evaluation dataset of 10 samples: the code
returns (1/5, 1/5), not the single-batch metrics (1, 1), and the result
changes when only the dataset size changes (10 to 4). -/
theorem C3_counterexample :
    evalPass [⟨1, 2, 2⟩] 10 = some (1/5, 1/5) ∧
    specEvalPass [⟨1, 2, 2⟩] = some (1, 1) ∧
    evalPass [⟨1, 2, 2⟩] 10 ≠ evalPass [⟨1, 2, 2⟩] 4 := by
  refine ⟨?_, ?_, ?_⟩
  · norm_num [evalPass]
  · norm_num [specEvalPass]
  · norm_num [evalPass]

/-- C3, amended: `eval()` draws exactly one batch (the first) from the
evaluation split — the returned pair depends only on that batch and on the
dataset size — but the pair is (batch_loss * batch_size / N, batch_corrects
/ N) with N the total size of the evaluation dataset, so the values are not
computed over the single batch alone and do depend on the dataset's total
size. -/
theorem C3_eval_single_batch (b : BatchStats) (rest : List BatchStats) (N : Nat) :
    evalPass (b :: rest) N =
      some ((b.loss * (b.size : ℚ)) / (N : ℚ), ((b.corrects : Nat) : ℚ) / (N : ℚ)) := rfl

/-- C4: the validation/evaluation passes read the class-count attribute
under the name `num_clsses`, which `__init__` never assigns (it assigns
`num_classes`), so any run with at least one validation batch reaches the
prediction-derivation step and aborts with an AttributeError at
validation/evaluation time. -/
theorem C4_num_clsses (batches : List BatchStats) (N : Nat) (h : batches ≠ []) :
    ("num_clsses") ∉ engineInstanceAttrs ∧ ("num_classes") ∈ engineInstanceAttrs ∧
    valPassChecked batches N = Except.error ("AttributeError: " ++ "num_clsses") := by
  refine ⟨by decide, by decide, ?_⟩
  cases batches with
  | nil => exact absurd rfl h
  | cons b rest => rfl

/-- C4, witness: a validation split with one batch of size 2. -/
theorem C4_num_clsses_witness :
    ("num_clsses") ∉ engineInstanceAttrs ∧ ("num_classes") ∈ engineInstanceAttrs ∧
    valPassChecked [⟨1, 2, 1⟩] 2 = Except.error ("AttributeError: " ++ "num_clsses") :=
  C4_num_clsses [⟨1, 2, 1⟩] 2 (by decide)

/-- C7: for any sequence of batches with per-batch losses and sizes, the
loss reported by a training pass and by a validation pass equals the sum of
batch_loss * batch_size over the batches, divided by the total number of
samples in that split's dataset. -/
theorem C7_weighted_loss (batches : List BatchStats) (N : Nat) :
    train_one_epoch_loss batches N =
      (batches.map (fun b => b.loss * (b.size : ℚ))).sum / (N : ℚ) ∧
    (valPass batches N).1 =
      (batches.map (fun b => b.loss * (b.size : ℚ))).sum / (N : ℚ) := by
  have h := foldl_weighted batches 0
  rw [zero_add] at h
  exact ⟨by rw [train_one_epoch_loss, weighted_total_loss, h],
         by rw [valPass, weighted_total_loss, h]⟩

/-- C8: within a single `train()` call, the epoch numbers recorded in
successive checkpoint saves form a monotonically non-decreasing sequence
(only improving epochs are saved, and the loop's epoch counter increases). -/
theorem C8_saved_epochs_sorted (start : Nat) (accs : List ℚ) :
    List.Sorted (fun a b => a ≤ b) (savedEpochs start accs) :=
  trainLoop_saved_sorted accs start 0

/-- C9: the device-selection block of `BaseEngine.__init__` evaluated on
both branches.  With no accelerator the cpu branch completes and logs via
`log.warn`; with an accelerator available the code calls `log.ward` — a
misspelling of `log.warn` — so the attribute lookup fails and construction
raises AttributeError instead of logging, contradicting the claim that
construction completes with the choice logged on either branch. -/
theorem C9_device_init :
    baseEngineDeviceInit false = Except.ok ("cpu") ∧
    baseEngineDeviceInit true = Except.error ("AttributeError: " ++ "ward") :=
  ⟨rfl, rfl⟩

/-- C5: for a NACTI adapter built with a recognized label type whose label
map is total over the category ids of the annotation file, every valid index
yields as its label exactly the label map's value at the record's raw
category id — an element of the map's value set, not an unmapped id. -/
theorem C5_label_mapped (md : Metadata) (lt : String) (d : NACTI)
    (_hinit : NACTI.init md lt = Except.ok d)
    (i : Nat) (hi : i < NACTI.length d) (himg : i < d.metadata.images.length)
    (htot : ∀ a ∈ d.metadata.annotations,
      (dictLookup a.category_id d.label_map).isSome) :
    ∃ img lbl ann, d.metadata.annotations[i]? = some ann ∧
      dictLookup ann.category_id d.label_map = some lbl ∧
      NACTI.getitem d i = Except.ok (img, lbl) ∧
      lbl ∈ d.label_map.map Prod.snd := by
  have hann : i < d.metadata.annotations.length := hi
  have hione : d.metadata.images[i]? = some (d.metadata.images[i]) :=
    List.getElem?_eq_getElem himg
  have haone : d.metadata.annotations[i]? = some (d.metadata.annotations[i]) :=
    List.getElem?_eq_getElem hann
  have hsome := htot (d.metadata.annotations[i]) (List.getElem_mem hann)
  obtain ⟨lbl, hlbl⟩ := Option.isSome_iff_exists.mp hsome
  refine ⟨(d.metadata.images[i]).file_name, lbl, d.metadata.annotations[i],
    haone, hlbl, ?_, ?_⟩
  · simp only [NACTI.getitem, hione, haone, hlbl]
  · exact List.mem_map_of_mem Prod.snd (dictLookup_mem hlbl)

/-- C5, witness: the spec's example — annotations with category ids 1 and
16 under the binary map give item 0 label 1 and item 1 label 0, and the
mapped-label property holds at index 0. -/
theorem C5_label_mapped_witness :
    NACTI.getitem exampleBinaryDS 0 = Except.ok ("img0.jpg", 1) ∧
    NACTI.getitem exampleBinaryDS 1 = Except.ok ("img1.jpg", 0) ∧
    (∃ img lbl ann, exampleBinaryDS.metadata.annotations[0]? = some ann ∧
      dictLookup ann.category_id exampleBinaryDS.label_map = some lbl ∧
      NACTI.getitem exampleBinaryDS 0 = Except.ok (img, lbl) ∧
      lbl ∈ exampleBinaryDS.label_map.map Prod.snd) :=
  ⟨rfl, rfl,
    C5_label_mapped exampleMetadata ("binary") exampleBinaryDS rfl 0
      (by decide) (by decide) (by decide)⟩

/-- C6: any label-type selector outside the recognized set makes the NACTI
constructor fail (an error is logged and the `LABEL_TYPES` subscript raises
KeyError), so construction never produces an adapter and no image is ever
read with an unrecognized selector. -/
theorem C6_unrecognized (md : Metadata) (lt : String)
    (h1 : lt ≠ "binary") (h2 : lt ≠ "multi") :
    NACTI.init md lt = Except.error ("KeyError: label_type") := by
  have h : dictLookup lt NACTI.LABEL_TYPES = (none : Option (List (Nat × Nat))) := by
    simp [NACTI.LABEL_TYPES, dictLookup, h1, h2]
  rw [NACTI.init, h]

/-- C6, witness: the selector "multiclass" is rejected at construction. -/
theorem C6_unrecognized_witness :
    NACTI.init exampleMetadata ("multiclass") = Except.error ("KeyError: label_type") :=
  C6_unrecognized exampleMetadata ("multiclass") (by decide) (by decide)

/-- C10: constructing the NACTI adapter with the recognized selector "multi"
succeeds, but its label map is the empty dict, so every item access at a
valid index fails with a KeyError on the label-map lookup of the record's
category id. -/
theorem C10_multi_keyerror (md : Metadata) (i : Nat)
    (himg : i < md.images.length) (hann : i < md.annotations.length) :
    NACTI.init md ("multi") = Except.ok (multiDS md) ∧
    NACTI.getitem (multiDS md) i = Except.error ("KeyError: label_map") := by
  constructor
  · rfl
  · have h1 : md.images[i]? = some (md.images[i]) :=
      List.getElem?_eq_getElem himg
    have h2 : md.annotations[i]? = some (md.annotations[i]) :=
      List.getElem?_eq_getElem hann
    simp only [NACTI.getitem, multiDS, NACTI.MULTI, dictLookup, h1, h2]

/-- C10, witness: on the example metadata, "multi" construction succeeds and
item 0 raises KeyError on the empty label map. -/
theorem C10_multi_keyerror_witness :
    NACTI.init exampleMetadata ("multi") = Except.ok (multiDS exampleMetadata) ∧
    NACTI.getitem (multiDS exampleMetadata) 0 = Except.error ("KeyError: label_map") :=
  C10_multi_keyerror exampleMetadata 0 (by decide) (by decide)
